import Mathlib

/-!
Verification of the BookLens preference-to-query and result-normalization
pipeline (`src/app.py`) as a shallow embedding in Lean 4.

Modelling conventions:
- Python dicts with a fixed key set become structures; an absent key becomes
  `none` in an `Option` field.
- `dict.get(k, default)` becomes `Option.getD`.
- Python `str.strip()` is embedded as `pyStrip` (drop whitespace from both
  ends of the character list) and single-character `str.replace('/', ' ')`
  as `pyReplaceSlash` (character-wise substitution).
- The outbound HTTP layer is a parameter `net : HttpCall → NetResponse`;
  each invocation of `fetch_books_data` records the `HttpCall` it issues and
  the user-visible error messages it emits (`st.error`), so that "number of
  network calls" and "number of reported failures" are observable.
- `st.secrets["GOOGLE_BOOKS_API_KEY"]` is threaded in as the `apiKey`
  argument.
-/

/-- The structured user preferences returned by `get_user_preferences`
(`src/app.py` lines 122-127): the keys `genre`, `author`, `recent_book`,
`topics`. -/
structure PreferenceInput where
  genre : List String
  author : String
  recent_book : String
  topics : List String
deriving DecidableEq, Repr

/-- The nested `imageLinks` object of a raw Google Books volume. -/
structure ImageLinks where
  thumbnail : Option String
deriving DecidableEq, Repr

/-- The nested `volumeInfo` metadata object of a raw API result item; every
field may be absent. -/
structure VolumeInfo where
  title : Option String
  authors : Option (List String)
  publisher : Option String
  publishedDate : Option String
  description : Option String
  categories : Option (List String)
  imageLinks : Option ImageLinks
  previewLink : Option String
deriving DecidableEq, Repr

/-- One raw API result item; its `volumeInfo` object may be absent. -/
structure BookItem where
  volumeInfo : Option VolumeInfo
deriving DecidableEq, Repr

/-- The normalized record built by `process_book_data`
(`src/app.py` lines 39-48). -/
structure BookRecord where
  title : String
  authors : List String
  publisher : String
  published_date : String
  description : String
  categories : List String
  image_links : Option String
  preview_link : Option String
deriving DecidableEq, Repr

/-- The JSON body of a successful API response: an object with an optional
`items` array. -/
structure BooksData where
  items : Option (List BookItem)
deriving DecidableEq, Repr

/-- The parameters of one outbound HTTP GET issued by `fetch_books_data`
(`src/app.py` lines 21-28). -/
structure HttpCall where
  q : String
  key : String
  maxResults : Nat
  langRestrict : String
deriving DecidableEq, Repr

/-- Outcome of one network call: a transport failure (`requests.RequestException`:
non-2xx status via `raise_for_status`, connection error, timeout) carrying the
exception text, or a parsed JSON body. -/
inductive NetResponse where
  | transportError (msg : String)
  | ok (data : BooksData)
deriving DecidableEq, Repr

/-- Result of running `fetch_books_data`: the returned value (`None` on the
error path), plus the observable effects: the HTTP calls issued and the
user-visible error messages emitted via `st.error`. -/
structure FetchRun where
  response : Option BooksData
  calls : List HttpCall
  errors : List String
deriving DecidableEq, Repr

/-- Result of running `get_book_recommendations`: the recommendation list
plus the observable effects inherited from `fetch_books_data`. -/
structure RunResult where
  recs : List BookRecord
  calls : List HttpCall
  errors : List String
deriving DecidableEq, Repr

/-- Embedding of Python `str.replace('/', ' ')`: a single-character pattern
and replacement, i.e. character-wise substitution. -/
def pyReplaceSlash (s : String) : String :=
  ⟨s.data.map (fun c => if c = '/' then ' ' else c)⟩

/-- Embedding of Python `str.strip()`: remove leading and trailing
whitespace characters. -/
def pyStrip (s : String) : String :=
  ⟨((s.data.dropWhile Char.isWhitespace).reverse.dropWhile Char.isWhitespace).reverse⟩

/-- Hex digit (uppercase) for a value below 16, as used by percent-encoding. -/
def hexChar (n : Nat) : Char :=
  if n < 10 then Char.ofNat (n + 48) else Char.ofNat (n + 55)

/-- The UTF-8 encoding of one character, as a list of byte values. -/
def utf8Bytes (c : Char) : List Nat :=
  let n := c.toNat
  if n < 128 then [n]
  else if n < 2048 then [192 + n / 64, 128 + n % 64]
  else if n < 65536 then [224 + n / 4096, 128 + (n / 64) % 64, 128 + n % 64]
  else [240 + n / 262144, 128 + (n / 4096) % 64, 128 + (n / 64) % 64, 128 + n % 64]

/-- Percent-encoding of one UTF-8 byte as done by `urllib.parse.quote` with
its default safe set: ASCII letters, digits, `_.-~` and `/` pass through,
every other byte becomes `%XX`. -/
def quoteByte (n : Nat) : String :=
  if (65 ≤ n ∧ n ≤ 90) ∨ (97 ≤ n ∧ n ≤ 122) ∨ (48 ≤ n ∧ n ≤ 57) ∨
      n = 95 ∨ n = 46 ∨ n = 45 ∨ n = 126 ∨ n = 47 then
    String.singleton (Char.ofNat n)
  else
    "%" ++ String.singleton (hexChar (n / 16)) ++ String.singleton (hexChar (n % 16))

/-- Embedding of `urllib.parse.quote` (`src/app.py` line 19): percent-encode
the UTF-8 bytes of the string. -/
def quote (s : String) : String :=
  String.join ((s.data.flatMap utf8Bytes).map quoteByte)

/-- The query cleaning applied by `fetch_books_data` before encoding
(`src/app.py` line 18): `query.replace('/', ' ').strip()`. -/
def cleanQuery (query : String) : String :=
  pyStrip (pyReplaceSlash query)

/-- The parameter record of the single `requests.get` call
(`src/app.py` lines 21-26): the percent-encoded cleaned query, the API key
from process configuration, the caller's `max_results`, and the fixed
language restriction "ko". -/
def mkCall (apiKey query : String) (max_results : Nat) : HttpCall :=
  ⟨quote (cleanQuery query), apiKey, max_results, "ko"⟩

/-- `fetch_books_data` (`src/app.py` lines 14-33): clean and encode the
query, issue one GET, return the JSON body on success; on
`requests.RequestException` emit one `st.error` message and return `None`. -/
def fetch_books_data (net : HttpCall → NetResponse) (apiKey : String)
    (query : String) (max_results : Nat) : FetchRun :=
  match net (mkCall apiKey query max_results) with
  | NetResponse.transportError e =>
      ⟨none, [mkCall apiKey query max_results],
        ["API 호출 중 오류가 발생했습니다: " ++ e]⟩
  | NetResponse.ok data =>
      ⟨some data, [mkCall apiKey query max_results], []⟩

/-- The Python default `max_results=5` of `fetch_books_data`
(`src/app.py` line 14), modelled as a wrapper fixing the argument. -/
def fetch_books_data_default (net : HttpCall → NetResponse) (apiKey : String)
    (query : String) : FetchRun :=
  fetch_books_data net apiKey query 5

/-- The all-absent `volumeInfo`, i.e. the `{}` default of
`book_item.get('volumeInfo', {})`. -/
def emptyVolumeInfo : VolumeInfo :=
  ⟨none, none, none, none, none, none, none, none⟩

/-- The `{}` default of `volume_info.get('imageLinks', {})`. -/
def emptyImageLinks : ImageLinks := ⟨none⟩

/-- `process_book_data` (`src/app.py` lines 35-48): project the nested
metadata object into a fixed-shape record, defaulting each absent field. -/
def process_book_data (book_item : BookItem) : BookRecord :=
  let volume_info := book_item.volumeInfo.getD emptyVolumeInfo
  { title := volume_info.title.getD "제목 없음"
    authors := volume_info.authors.getD ["작자 미상"]
    publisher := volume_info.publisher.getD "출판사 정보 없음"
    published_date := volume_info.publishedDate.getD "날짜 정보 없음"
    description := volume_info.description.getD "설명 없음"
    categories := volume_info.categories.getD ["분류 없음"]
    image_links := (volume_info.imageLinks.getD emptyImageLinks).thumbnail
    preview_link := volume_info.previewLink }

/-- The query-assembly step of `get_book_recommendations`
(`src/app.py` lines 53-66): append the space-joined genres if non-empty,
the space-joined topics if non-empty, and `inauthor:` plus the author if
non-empty, then join the collected terms with single spaces. -/
def buildQuery (user_preferences : PreferenceInput) : String :=
  let search_terms : List String :=
    (if user_preferences.genre ≠ [] then
      [String.intercalate " " user_preferences.genre] else []) ++
    (if user_preferences.topics ≠ [] then
      [String.intercalate " " user_preferences.topics] else []) ++
    (if user_preferences.author ≠ "" then
      ["inauthor:" ++ user_preferences.author] else [])
  String.intercalate " " search_terms

/-- `get_book_recommendations` (`src/app.py` lines 50-78): build the query;
if it strips to empty return `[]` with no network call; otherwise fetch with
`max_results=10`; on `None` or a body without `items` return `[]`;
otherwise map `process_book_data` over the items. -/
def get_book_recommendations (net : HttpCall → NetResponse) (apiKey : String)
    (user_preferences : PreferenceInput) : RunResult :=
  if pyStrip (buildQuery user_preferences) = "" then ⟨[], [], []⟩
  else
    match fetch_books_data net apiKey (buildQuery user_preferences) 10 with
    | ⟨none, calls, errs⟩ => ⟨[], calls, errs⟩
    | ⟨some books_data, calls, errs⟩ =>
      match books_data.items with
      | none => ⟨[], calls, errs⟩
      | some items => ⟨items.map process_book_data, calls, errs⟩

/-- The query assembly as worded by the spec: the fragments, in fixed order,
are the space-joined genres when the genre list is non-empty, the
space-joined topics when the topic list is non-empty, and `inauthor:`
immediately followed by the author when the author is non-empty; the present
fragments are joined with single spaces. -/
def buildQuerySpec (p : PreferenceInput) : String :=
  String.intercalate " "
    (([if p.genre = [] then none else some (String.intercalate " " p.genre),
       if p.topics = [] then none else some (String.intercalate " " p.topics),
       if p.author = "" then none else some ("inauthor:" ++ p.author)] :
      List (Option String)).filterMap id)

/-- A network stub whose every response is a success body without `items`. -/
def netNoItems : HttpCall → NetResponse := fun _ => NetResponse.ok ⟨none⟩

/-- A fully empty preference record. -/
def prefEmpty : PreferenceInput := ⟨[], "", "", []⟩

/-- The sample preference record of the spec: genres `["과학"]`,
topics `["철학"]`, author `"칼세이건"`. -/
def prefSample : PreferenceInput := ⟨["과학"], "칼세이건", "", ["철학"]⟩

/-- C1: the query-assembly step of `get_book_recommendations` joins, with
single spaces, exactly the present fragments in fixed order (genres joined
by spaces if non-empty, then topics joined by spaces if non-empty, then
`inauthor:` immediately followed by the author if non-empty); on the sample
preferences it yields `"과학 철학 inauthor:칼세이건"`. -/
theorem claim_C1 :
    (∀ p : PreferenceInput, buildQuery p = buildQuerySpec p) ∧
    buildQuery prefSample = "과학 철학 inauthor:칼세이건" := by
  refine ⟨?_, by decide⟩
  intro p
  by_cases hg : p.genre = [] <;> by_cases ht : p.topics = [] <;>
    by_cases ha : p.author = "" <;>
    simp [buildQuery, buildQuerySpec, hg, ht, ha]

/-- C2: with empty genres, empty topics and an empty author the built query
is the empty string and `get_book_recommendations` returns `[]` with no
network call and no error; more generally, whenever the built query strips
to the empty string, the result is `[]` with no network call. -/
theorem claim_C2 :
    (∀ (p : PreferenceInput) (net : HttpCall → NetResponse) (key : String),
      p.genre = [] → p.topics = [] → p.author = "" →
      buildQuery p = "" ∧ get_book_recommendations net key p = ⟨[], [], []⟩) ∧
    (∀ (p : PreferenceInput) (net : HttpCall → NetResponse) (key : String),
      pyStrip (buildQuery p) = "" →
      get_book_recommendations net key p = ⟨[], [], []⟩) := by
  constructor
  · intro p net key hg ht ha
    have hq : buildQuery p = "" := by
      simp [buildQuery, hg, ht, ha]
      rfl
    have hs : pyStrip (buildQuery p) = "" := by rw [hq]; rfl
    exact ⟨hq, by simp [get_book_recommendations, hs]⟩
  · intro p net key h
    simp [get_book_recommendations, h]

/-- Witness for C2 at the fully empty preference record. -/
theorem claim_C2_witness :
    buildQuery prefEmpty = "" ∧
    get_book_recommendations netNoItems "k" prefEmpty = ⟨[], [], []⟩ :=
  claim_C2.1 prefEmpty netNoItems "k" rfl rfl rfl

/-- C3: for every raw result item with a metadata object, each absent
metadata field is replaced by its fixed sentinel — title by "제목 없음",
authors by the single-element ["작자 미상"], publisher by "출판사 정보 없음",
publishedDate by "날짜 정보 없음", description by "설명 없음", categories by
["분류 없음"] — while an absent thumbnail URL (whether the `imageLinks`
object is missing or lacks `thumbnail`) and an absent preview URL map to
`none`, never to sentinel text. -/
theorem claim_C3 (b : BookItem) (vi : VolumeInfo) (hb : b.volumeInfo = some vi) :
    (vi.title = none → (process_book_data b).title = "제목 없음") ∧
    (vi.authors = none → (process_book_data b).authors = ["작자 미상"]) ∧
    (vi.publisher = none → (process_book_data b).publisher = "출판사 정보 없음") ∧
    (vi.publishedDate = none → (process_book_data b).published_date = "날짜 정보 없음") ∧
    (vi.description = none → (process_book_data b).description = "설명 없음") ∧
    (vi.categories = none → (process_book_data b).categories = ["분류 없음"]) ∧
    (vi.imageLinks = none → (process_book_data b).image_links = none) ∧
    (∀ il : ImageLinks, vi.imageLinks = some il → il.thumbnail = none →
      (process_book_data b).image_links = none) ∧
    (vi.previewLink = none → (process_book_data b).preview_link = none) := by
  refine ⟨?_, ?_, ?_, ?_, ?_, ?_, ?_, ?_, ?_⟩ <;>
    first
      | (intro h; simp [process_book_data, emptyImageLinks, hb, h])
      | (intro il hil h; simp [process_book_data, hb, hil, h])

/-- Witness for C3 at an item whose metadata object is present but has every
field absent. -/
theorem claim_C3_witness :
    (process_book_data ⟨some emptyVolumeInfo⟩).title = "제목 없음" ∧
    (process_book_data ⟨some emptyVolumeInfo⟩).authors = ["작자 미상"] ∧
    (process_book_data ⟨some emptyVolumeInfo⟩).publisher = "출판사 정보 없음" ∧
    (process_book_data ⟨some emptyVolumeInfo⟩).published_date = "날짜 정보 없음" ∧
    (process_book_data ⟨some emptyVolumeInfo⟩).description = "설명 없음" ∧
    (process_book_data ⟨some emptyVolumeInfo⟩).categories = ["분류 없음"] ∧
    (process_book_data ⟨some emptyVolumeInfo⟩).image_links = none ∧
    (process_book_data ⟨some emptyVolumeInfo⟩).preview_link = none := by
  have h := claim_C3 ⟨some emptyVolumeInfo⟩ emptyVolumeInfo rfl
  exact ⟨h.1 rfl, h.2.1 rfl, h.2.2.1 rfl, h.2.2.2.1 rfl, h.2.2.2.2.1 rfl,
    h.2.2.2.2.2.1 rfl, h.2.2.2.2.2.2.1 rfl, h.2.2.2.2.2.2.2.2 rfl⟩

/-- C8: the normalizer is a total function of the raw item (it is defined
for every `BookItem`, so in the embedding it can never raise), and an item
with no metadata object at all yields the fully defaulted record: all
sentinels, `none` thumbnail and `none` preview link. -/
theorem claim_C8 (b : BookItem) (hb : b.volumeInfo = none) :
    process_book_data b =
      ⟨"제목 없음", ["작자 미상"], "출판사 정보 없음", "날짜 정보 없음",
        "설명 없음", ["분류 없음"], none, none⟩ := by
  simp [process_book_data, hb, emptyVolumeInfo, emptyImageLinks]

/-- Witness for C8 at the item `{}` with no `volumeInfo` object. -/
theorem claim_C8_witness :
    process_book_data ⟨none⟩ =
      ⟨"제목 없음", ["작자 미상"], "출판사 정보 없음", "날짜 정보 없음",
        "설명 없음", ["분류 없음"], none, none⟩ :=
  claim_C8 ⟨none⟩ rfl

/-- Helper: the calls issued by one `fetch_books_data` invocation are exactly
the single parameter record of its GET, whatever the network answers. -/
theorem fetch_books_data_calls (net : HttpCall → NetResponse) (key q : String)
    (mr : Nat) : (fetch_books_data net key q mr).calls = [mkCall key q mr] := by
  unfold fetch_books_data
  cases net (mkCall key q mr) <;> rfl

/-- The cleaning step as claim C4 words it: every forward slash removed from
the query text, then leading and trailing whitespace trimmed. -/
def cleanQueryClaimC4 (q : String) : String :=
  pyStrip ⟨q.data.filter (fun c => c != '/')⟩

/-- Slash-to-space substitution written as structural recursion over the
character list, following the amended wording of C4. -/
def replaceSlashListC4 : List Char → List Char
  | [] => []
  | c :: cs => (if c = '/' then ' ' else c) :: replaceSlashListC4 cs

/-- The cleaning step as the amended claim words it: every forward slash
replaced by a single space, then leading and trailing whitespace trimmed. -/
def cleanQueryAmendedC4 (q : String) : String :=
  ⟨(((replaceSlashListC4 q.data).dropWhile Char.isWhitespace).reverse.dropWhile
      Char.isWhitespace).reverse⟩

/-- Counterexample to C4 as stated: on the query "a/b" the code's cleaning
step yields "a b" (the slash becomes a space), not the "ab" that removing
every '/' would give. -/
theorem claim_C4_counterexample :
    cleanQuery "a/b" = "a b" ∧ cleanQueryClaimC4 "a/b" = "ab" ∧
    cleanQuery "a/b" ≠ cleanQueryClaimC4 "a/b" := by decide

/-- C4 (amended): the transmission step replaces every forward slash in the
query text by a single space (rather than deleting it) and trims the
surrounding whitespace, and the text transmitted is the URL-quoting of
exactly that cleaned query. -/
theorem claim_C4 :
    (∀ q : String, cleanQuery q = cleanQueryAmendedC4 q) ∧
    (∀ (net : HttpCall → NetResponse) (key q : String) (mr : Nat),
      (fetch_books_data net key q mr).calls =
        [⟨quote (cleanQueryAmendedC4 q), key, mr, "ko"⟩]) := by
  have hrep : ∀ l : List Char,
      replaceSlashListC4 l = l.map (fun c => if c = '/' then ' ' else c) := by
    intro l
    induction l with
    | nil => rfl
    | cons c cs ih => simp [replaceSlashListC4, ih]
  have heq : ∀ q : String, cleanQuery q = cleanQueryAmendedC4 q := by
    intro q
    simp [cleanQuery, cleanQueryAmendedC4, pyStrip, pyReplaceSlash, hrep]
  refine ⟨heq, ?_⟩
  intro net key q mr
  rw [fetch_books_data_calls]
  simp [mkCall, heq q]

/-- A network stub whose every response is a transport failure "timeout". -/
def netDown : HttpCall → NetResponse := fun _ => NetResponse.transportError "timeout"

/-- A network stub whose every response is a success body with `items: []`. -/
def netEmptyItems : HttpCall → NetResponse := fun _ => NetResponse.ok ⟨some []⟩

/-- A network stub whose every response is a success body with one bare item. -/
def netOneItem : HttpCall → NetResponse := fun _ => NetResponse.ok ⟨some [⟨none⟩]⟩

/-- C5: when the query reaches the network and the external call fails with
a transport error, `get_book_recommendations` returns the empty sequence,
reports exactly one user-visible error message, and issues exactly one call
(no retry); being a total function, it cannot crash on this path. -/
theorem claim_C5 (p : PreferenceInput) (net : HttpCall → NetResponse)
    (key m : String) (hq : pyStrip (buildQuery p) ≠ "")
    (hnet : ∀ c, net c = NetResponse.transportError m) :
    (get_book_recommendations net key p).recs = [] ∧
    (get_book_recommendations net key p).errors =
      ["API 호출 중 오류가 발생했습니다: " ++ m] ∧
    (get_book_recommendations net key p).calls.length = 1 := by
  simp [get_book_recommendations, fetch_books_data, hq, hnet]

/-- Witness for C5 at the sample preferences with a failing network stub. -/
theorem claim_C5_witness :
    pyStrip (buildQuery prefSample) ≠ "" ∧
    (get_book_recommendations netDown "k" prefSample).recs = [] ∧
    (get_book_recommendations netDown "k" prefSample).errors =
      ["API 호출 중 오류가 발생했습니다: timeout"] ∧
    (get_book_recommendations netDown "k" prefSample).calls.length = 1 := by
  have h := claim_C5 prefSample netDown "k" "timeout" (by decide) (fun _ => rfl)
  exact ⟨by decide, h.1, h.2.1, h.2.2⟩

/-- C6: on a successful response whose body has no `items` field, and on one
whose `items` list is empty, `get_book_recommendations` returns the empty
sequence and reports no error. -/
theorem claim_C6 :
    (∀ (p : PreferenceInput) (net : HttpCall → NetResponse) (key : String),
      (∀ c, net c = NetResponse.ok ⟨none⟩) →
      (get_book_recommendations net key p).recs = [] ∧
      (get_book_recommendations net key p).errors = []) ∧
    (∀ (p : PreferenceInput) (net : HttpCall → NetResponse) (key : String),
      (∀ c, net c = NetResponse.ok ⟨some []⟩) →
      (get_book_recommendations net key p).recs = [] ∧
      (get_book_recommendations net key p).errors = []) := by
  constructor <;>
  · intro p net key hnet
    by_cases hq : pyStrip (buildQuery p) = "" <;>
      simp [get_book_recommendations, fetch_books_data, hq, hnet]

/-- Witness for C6 at the sample preferences, once with an `items`-free body
and once with an empty `items` list. -/
theorem claim_C6_witness :
    (get_book_recommendations netNoItems "k" prefSample).recs = [] ∧
    (get_book_recommendations netEmptyItems "k" prefSample).recs = [] :=
  ⟨(claim_C6.1 prefSample netNoItems "k" (fun _ => rfl)).1,
   (claim_C6.2 prefSample netEmptyItems "k" (fun _ => rfl)).1⟩

/-- C7: on a successful response with an `items` list, the returned sequence
is exactly the element-wise image of that list under `process_book_data`, in
the same order and of the same length. -/
theorem claim_C7 (p : PreferenceInput) (net : HttpCall → NetResponse)
    (key : String) (items : List BookItem)
    (hq : pyStrip (buildQuery p) ≠ "")
    (hnet : ∀ c, net c = NetResponse.ok ⟨some items⟩) :
    (get_book_recommendations net key p).recs = items.map process_book_data ∧
    (get_book_recommendations net key p).recs.length = items.length := by
  have h : (get_book_recommendations net key p).recs =
      items.map process_book_data := by
    simp [get_book_recommendations, fetch_books_data, hq, hnet]
  exact ⟨h, by rw [h]; simp⟩

/-- Witness for C7 at the sample preferences with a one-item response. -/
theorem claim_C7_witness :
    pyStrip (buildQuery prefSample) ≠ "" ∧
    (get_book_recommendations netOneItem "k" prefSample).recs =
      List.map process_book_data [⟨none⟩] := by
  have h := claim_C7 prefSample netOneItem "k" [⟨none⟩] (by decide) (fun _ => rfl)
  exact ⟨by decide, h.1⟩

/-- Helper: whenever the built query does not strip to empty, the calls
issued by `get_book_recommendations` are exactly the one GET of its fetch,
whatever the network answers. -/
theorem get_book_recommendations_calls (net : HttpCall → NetResponse)
    (key : String) (p : PreferenceInput)
    (hq : pyStrip (buildQuery p) ≠ "") :
    (get_book_recommendations net key p).calls =
      [mkCall key (buildQuery p) 10] := by
  unfold get_book_recommendations
  rw [if_neg hq]
  cases hf : fetch_books_data net key (buildQuery p) 10 with
  | mk resp calls errs =>
    have hc : calls = [mkCall key (buildQuery p) 10] := by
      have h2 := fetch_books_data_calls net key (buildQuery p) 10
      rw [hf] at h2
      exact h2
    cases resp with
    | none => simpa using hc
    | some d =>
      cases hd : d.items with
      | none => simpa [hd] using hc
      | some items => simpa [hd] using hc

/-- C9: every invocation that reaches the network issues exactly one GET,
whose parameters are the URL-quoted cleaned query text, `maxResults` equal
to the caller-supplied limit (10 from the top-level recommendation flow),
`langRestrict` fixed to "ko", and the configured API key; the component
default of `fetch_books_data` fixes the limit to 5. -/
theorem claim_C9 :
    (∀ (net : HttpCall → NetResponse) (key : String) (p : PreferenceInput),
      pyStrip (buildQuery p) ≠ "" →
      (get_book_recommendations net key p).calls =
        [⟨quote (cleanQuery (buildQuery p)), key, 10, "ko"⟩]) ∧
    (∀ (net : HttpCall → NetResponse) (key q : String) (mr : Nat),
      (fetch_books_data net key q mr).calls =
        [⟨quote (cleanQuery q), key, mr, "ko"⟩]) ∧
    (∀ (net : HttpCall → NetResponse) (key q : String),
      fetch_books_data_default net key q = fetch_books_data net key q 5) := by
  refine ⟨?_, ?_, fun net key q => rfl⟩
  · intro net key p hq
    rw [get_book_recommendations_calls net key p hq]
    rfl
  · intro net key q mr
    rw [fetch_books_data_calls]
    rfl

/-- Witness for C9 at the sample preferences. -/
theorem claim_C9_witness :
    pyStrip (buildQuery prefSample) ≠ "" ∧
    (get_book_recommendations netNoItems "k" prefSample).calls =
      [⟨quote (cleanQuery (buildQuery prefSample)), "k", 10, "ko"⟩] :=
  ⟨by decide, claim_C9.1 netNoItems "k" prefSample (by decide)⟩

/-- C10: two preference records that agree on genres, topics and author (so
that they can differ only in `recent_book`) build identical queries and,
against the same network, produce identical results: the `recent_book` field
is never consumed by the pipeline. -/
theorem claim_C10 (p1 p2 : PreferenceInput) (net : HttpCall → NetResponse)
    (key : String) (hg : p1.genre = p2.genre) (ht : p1.topics = p2.topics)
    (ha : p1.author = p2.author) :
    buildQuery p1 = buildQuery p2 ∧
    get_book_recommendations net key p1 = get_book_recommendations net key p2 := by
  have hq : buildQuery p1 = buildQuery p2 := by
    simp [buildQuery, hg, ht, ha]
  exact ⟨hq, by simp [get_book_recommendations, hq]⟩

/-- Two preference records identical except for the recently read book. -/
def prefRecentA : PreferenceInput := ⟨["과학"], "", "어린 왕자", []⟩

/-- Second record of the pair, differing from the first only in
`recent_book`. -/
def prefRecentB : PreferenceInput := ⟨["과학"], "", "데미안", []⟩

/-- Witness for C10 at a pair differing only in `recent_book`. -/
theorem claim_C10_witness :
    buildQuery prefRecentA = buildQuery prefRecentB ∧
    get_book_recommendations netNoItems "k" prefRecentA =
      get_book_recommendations netNoItems "k" prefRecentB :=
  claim_C10 prefRecentA prefRecentB netNoItems "k" rfl rfl rfl
